import Mathlib

/-!
# Verification of the EXIF date/time extractor (pkg/utils/exifutils.go)

A shallow embedding of the extractor in `pkg/utils/exifutils.go` of
matdmb/organize-media.  Buffers are lists of byte values (`Nat`, each < 256
in any real input); the `bytes.Reader` that Go threads through the
strategies is modelled by passing the buffer together with an explicit
cursor position.  Every call site hands the parser a `*bytes.Reader`
(an `io.ReadSeeker`), so the seeker branches of the Go code are the ones
embedded; the non-seekable fallback branch of `ParseTIFFHeader` is dead in
this program and is not modelled.

Fallible reads return `Option`, and every function that Go lets return an
`error` returns `Except ExifErr GoTime`, with one `ExifErr` constructor per
distinct error the source can produce.
-/

namespace OrganizeMedia

/-- A byte buffer: the raw file content, one `Nat` per byte. -/
abbrev Buffer := List Nat

instance instDecEqExcept {ε α : Type} [DecidableEq ε] [DecidableEq α] :
    DecidableEq (Except ε α) := fun a b =>
  match a, b with
  | .ok x, .ok y => if h : x = y then .isTrue (by simp [h]) else .isFalse (by simp [h])
  | .error x, .error y => if h : x = y then .isTrue (by simp [h]) else .isFalse (by simp [h])
  | .ok _, .error _ => .isFalse (by simp)
  | .error _, .ok _ => .isFalse (by simp)

/-- The distinct errors the extractor functions in exifutils.go can produce
(each `fmt.Errorf` string, the io read failures, and the failure of a
negative `bytes.Reader.Seek`). -/
inductive ExifErr where
  /-- io.ReadFull hit end of data (io.EOF or io.ErrUnexpectedEOF). -/
  | truncated
  /-- bytes.Reader.Seek was asked for a negative absolute position. -/
  | negativeSeek
  /-- "invalid TIFF byte order marker" -/
  | invalidByteOrder
  /-- "invalid TIFF marker" -/
  | invalidTiffMarker
  /-- "not a valid JPEG file" -/
  | notAJpeg
  /-- "no EXIF data found in JPEG structure" -/
  | noExifInJpeg
  /-- "couldn't find EXIF data at known offsets" -/
  | noTiffAtOffsets
  /-- "no date/time information found" (ParseTIFFHeader, ScanForDateTimeString
  and the orchestrator's terminal error share this message). -/
  | noDateTime
  /-- Out of fuel in the JPEG marker-scan loop; the fuel supplied by
  `ExtractExifFromJPEG` always suffices, see there. -/
  | fuelExhausted
  deriving DecidableEq, Repr

/-- Model of Go `time.Time` restricted to what `time.Parse` with the layout
`"2006:01:02 15:04:05"` can produce: calendar fields plus the location name
(`time.Parse` attaches UTC when the layout carries no zone information). -/
structure GoTime where
  year : Nat
  month : Nat
  day : Nat
  hour : Nat
  minute : Nat
  second : Nat
  loc : String
  deriving DecidableEq, Repr

/-- An ASCII decimal digit byte. -/
def IsDigitByte (b : Nat) : Prop := 48 ≤ b ∧ b ≤ 57

instance (b : Nat) : Decidable (IsDigitByte b) := by
  unfold IsDigitByte; infer_instance

/-- Numeric value of an ASCII digit byte. -/
def digitVal (b : Nat) : Nat := b - 48

/-- Go's `isLeap` (time package): divisible by 4 and not by 100 unless by 400. -/
def isLeapYear (y : Nat) : Prop := y % 4 = 0 ∧ (y % 100 ≠ 0 ∨ y % 400 = 0)

instance (y : Nat) : Decidable (isLeapYear y) := by
  unfold isLeapYear; infer_instance

/-- Go's `daysIn(m, year)`: the number of days of month `m`. -/
def daysIn (month year : Nat) : Nat :=
  if month = 2 then (if isLeapYear year then 29 else 28)
  else if month = 4 ∨ month = 6 ∨ month = 9 ∨ month = 11 then 30
  else 31

/-- A two-digit numeric field of the date layout. -/
def num2 (a b : Nat) : Nat := digitVal a * 10 + digitVal b

/-- The four-digit year field of the date layout. -/
def num4 (a b c d : Nat) : Nat :=
  ((digitVal a * 10 + digitVal b) * 10 + digitVal c) * 10 + digitVal d

/-- Model of Go `time.Parse("2006:01:02 15:04:05", s)` on a 19-byte input.
`time.Parse` with this layout succeeds on a 19-character string iff each
numeric field is exactly two digits (four for the year) with the five
separator characters at their fixed positions — the layout's elements would
otherwise consume fewer than 19 characters and fail with extra text left
over — and each field is in range: month 1..12, day 1..daysIn, hour ≤ 23,
minute ≤ 59, second ≤ 59 (the year is unconstrained).  The result carries
UTC, as `time.Parse` does for a layout with no zone. -/
def parseExifString (s : List Nat) : Option GoTime :=
  match s with
  | [y1, y2, y3, y4, c1, mo1, mo2, c2, d1, d2, sp, h1, h2, c3, mi1, mi2, c4, s1, s2] =>
    if (c1 = 58 ∧ c2 = 58 ∧ sp = 32 ∧ c3 = 58 ∧ c4 = 58) ∧
       (IsDigitByte y1 ∧ IsDigitByte y2 ∧ IsDigitByte y3 ∧ IsDigitByte y4) ∧
       (IsDigitByte mo1 ∧ IsDigitByte mo2 ∧ IsDigitByte d1 ∧ IsDigitByte d2) ∧
       (IsDigitByte h1 ∧ IsDigitByte h2 ∧ IsDigitByte mi1 ∧ IsDigitByte mi2) ∧
       (IsDigitByte s1 ∧ IsDigitByte s2) then
      if 1 ≤ num2 mo1 mo2 ∧ num2 mo1 mo2 ≤ 12 ∧ 1 ≤ num2 d1 d2 ∧
         num2 d1 d2 ≤ daysIn (num2 mo1 mo2) (num4 y1 y2 y3 y4) ∧
         num2 h1 h2 ≤ 23 ∧ num2 mi1 mi2 ≤ 59 ∧ num2 s1 s2 ≤ 59 then
        some ⟨num4 y1 y2 y3 y4, num2 mo1 mo2, num2 d1 d2,
              num2 h1 h2, num2 mi1 mi2, num2 s1 s2, "UTC"⟩
      else none
    else none
  | _ => none

/-- Model of `io.ReadFull` on a `bytes.Reader` holding `buf` with cursor
`pos`: when `n` bytes are available it returns them and advances the cursor;
otherwise it consumes whatever remains (advancing the cursor to the end) and
fails. -/
def readFull (buf : Buffer) (pos n : Nat) : Option (List Nat) × Nat :=
  if pos + n ≤ buf.length then (some ((buf.drop pos).take n), pos + n)
  else (none, max pos buf.length)

/-- TIFF byte order selected by the header's marker. -/
inductive ByteOrder where
  | big
  | little
  deriving DecidableEq, Repr

/-- `binary.ByteOrder.Uint16` on two bytes. -/
def u16 (bo : ByteOrder) (b : List Nat) : Nat :=
  match bo, b with
  | .big, [b0, b1] => b0 * 256 + b1
  | .little, [b0, b1] => b1 * 256 + b0
  | _, _ => 0

/-- `binary.ByteOrder.Uint32` on four bytes. -/
def u32 (bo : ByteOrder) (b : List Nat) : Nat :=
  match bo, b with
  | .big, [b0, b1, b2, b3] => ((b0 * 256 + b1) * 256 + b2) * 256 + b3
  | .little, [b0, b1, b2, b3] => ((b3 * 256 + b2) * 256 + b1) * 256 + b0
  | _, _ => 0

/-- Standard date/time tag (0x0132). -/
def TagDateTime : Nat := 0x0132

/-- Tag for when the photo was taken (0x9003). -/
def TagDateTimeOriginal : Nat := 0x9003

/-- Tag for when the photo was digitized (0x9004). -/
def TagDateTimeDigitized : Nat := 0x9004

/-- The IFD entry loop of `ParseTIFFHeader` (exifutils.go lines 340-393).
Arguments: byte order, buffer, entry index `i` (0-based, as in the Go loop),
reader position `pos` (at the start of the next 12-byte entry) and the
number of entries still to process.  Returns the Go function's result
together with the reader's final cursor position, which the JPEG locator
observes after a failed parse.

For a date/time tag of ASCII type with count > 4 the code takes
`currentPos` (just after the 12 entry bytes), recomputes
`tiffHeaderStart := currentPos - (12*(i+1) + 2)` and seeks to
`tiffHeaderStart - 8 + valueOffset`; a negative target makes
`bytes.Reader.Seek` fail, which the function returns as an error.  After
reading 20 bytes there it seeks back to `currentPos` and parses the first
19 bytes; a failed parse continues with the next entry. -/
def parseIFDEntries (bo : ByteOrder) (buf : Buffer) :
    Nat → Nat → Nat → Except ExifErr GoTime × Nat
  | _, pos, 0 => (.error .noDateTime, pos)
  | i, pos, remaining + 1 =>
    match readFull buf pos 12 with
    | (none, p) => (.error .truncated, p)
    | (some ebytes, currentPos) =>
      -- tag = u16 of bytes 0-1, dataType = u16 of bytes 2-3,
      -- count = u32 of bytes 4-7, valueOffset = u32 of bytes 8-11
      if (u16 bo (ebytes.take 2) = TagDateTimeOriginal ∨
          u16 bo (ebytes.take 2) = TagDateTime ∨
          u16 bo (ebytes.take 2) = TagDateTimeDigitized) ∧
          u16 bo ((ebytes.drop 2).take 2) = 2 then
        if u32 bo ((ebytes.drop 4).take 4) ≤ 4 then
          parseIFDEntries bo buf (i + 1) currentPos remaining
        else
          -- seek target: tiffHeaderStart - 8 + valueOffset, where the code
          -- recomputes tiffHeaderStart as currentPos - (12*(i+1) + 2)
          if (currentPos : Int) - (12 * (i + 1) + 2) - 8 +
              (u32 bo ((ebytes.drop 8).take 4) : Int) < 0 then
            (.error .negativeSeek, currentPos)
          else
            match readFull buf ((currentPos : Int) - (12 * (i + 1) + 2) - 8 +
                (u32 bo ((ebytes.drop 8).take 4) : Int)).toNat 20 with
            | (none, p) => (.error .truncated, p)
            | (some dateBytes, _) =>
              match parseExifString (dateBytes.take 19) with
              | some t => (.ok t, currentPos)
              | none => parseIFDEntries bo buf (i + 1) currentPos remaining
      else
        parseIFDEntries bo buf (i + 1) currentPos remaining

/-- `ParseTIFFHeader` (exifutils.go lines 263-396) after the byte order has
been established, seeker path, together with the reader's final cursor
position: reads the 16-bit magic number (must be 42), the 32-bit first-IFD
offset, seeks to `tiffHeaderStart + ifdOffset` where `tiffHeaderStart` is
the current position minus the 8 header bytes just read, reads the 16-bit
entry count and processes the entries. -/
def parseTIFFAfterOrder (bo : ByteOrder) (buf : Buffer) (p1 : Nat) :
    Except ExifErr GoTime × Nat :=
  match readFull buf p1 2 with
  | (none, p) => (.error .truncated, p)
  | (some marker, p2) =>
    if u16 bo marker = 42 then
      match readFull buf p2 4 with
      | (none, p) => (.error .truncated, p)
      | (some offsetBytes, p3) =>
        -- currentPos is p3 = pos + 8; tiffHeaderStart := currentPos - 8 =
        -- p3 - 8, and the code seeks to tiffHeaderStart + ifdOffset
        match readFull buf (p3 - 8 + u32 bo offsetBytes) 2 with
        | (none, p) => (.error .truncated, p)
        | (some entryCountBytes, p4) =>
          parseIFDEntries bo buf 0 p4 (u16 bo entryCountBytes)
    else (.error .invalidTiffMarker, p2)

/-- The byte-order dispatch of `ParseTIFFHeader`: "MM" selects big-endian,
"II" little-endian, anything else is the invalid-byte-order failure, issued
before any further field of the stream is read. -/
def parseTIFFHeaderCore (buf : Buffer) (pos : Nat) : Except ExifErr GoTime × Nat :=
  match readFull buf pos 2 with
  | (none, p) => (.error .truncated, p)
  | (some orderMarker, p1) =>
    if orderMarker = [77, 77] then parseTIFFAfterOrder .big buf p1
    else if orderMarker = [73, 73] then parseTIFFAfterOrder .little buf p1
    else (.error .invalidByteOrder, p1)

/-- `ParseTIFFHeader` as its callers see it: the result alone. -/
def ParseTIFFHeader (buf : Buffer) (pos : Nat) : Except ExifErr GoTime :=
  (parseTIFFHeaderCore buf pos).1

/-- The marker-scan loop of `ExtractExifFromJPEG` (exifutils.go lines
102-166), with explicit fuel.  Each iteration reads a 2-byte marker; on
`0xFFE1` it reads the big-endian segment length and the 6 identifier bytes,
delegates to the TIFF parser on `"Exif\x00\x00"`, and on parser failure
skips `length - 2 - 6` bytes forward from wherever the parser left the
cursor; `0xFFDA` stops the scan; any other marker is skipped via its own
length field (a length below 2 stops the scan).  Every iteration advances
the cursor by at least two positions, so the fuel `buf.length + 2` supplied
by `ExtractExifFromJPEG` can never run out before the loop's own exit. -/
def jpegScan (buf : Buffer) : Nat → Nat → Except ExifErr GoTime
  | 0, _ => .error .fuelExhausted
  | fuel + 1, pos =>
    match readFull buf pos 2 with
    | (none, _) => .error .noExifInJpeg
    | (some mk, p1) =>
      if mk.getD 0 0 ≠ 255 then jpegScan buf fuel p1
      else if mk.getD 1 0 = 225 then
        match readFull buf p1 2 with
        | (none, _) => .error .noExifInJpeg
        | (some lb, p2) =>
          -- segment length = lb[0] <<< 8 ||| lb[1]; skip = length - 2 - 6
          match readFull buf p2 6 with
          | (none, _) => .error .noExifInJpeg
          | (some hdr, p3) =>
            if hdr = [69, 120, 105, 102, 0, 0] then
              match parseTIFFHeaderCore buf p3 with
              | (.ok t, _) => .ok t
              | (.error _, p4) =>
                if 0 < (lb.getD 0 0 * 256 + lb.getD 1 0 : Int) - 2 - 6 then
                  jpegScan buf fuel
                    (p4 + ((lb.getD 0 0 * 256 + lb.getD 1 0 : Int) - 2 - 6).toNat)
                else jpegScan buf fuel p4
            else
              if 0 < (lb.getD 0 0 * 256 + lb.getD 1 0 : Int) - 2 - 6 then
                jpegScan buf fuel
                  (p3 + ((lb.getD 0 0 * 256 + lb.getD 1 0 : Int) - 2 - 6).toNat)
              else jpegScan buf fuel p3
      else if mk.getD 1 0 = 218 then .error .noExifInJpeg
      else
        match readFull buf p1 2 with
        | (none, _) => .error .noExifInJpeg
        | (some lb, p2) =>
          if lb.getD 0 0 * 256 + lb.getD 1 0 < 2 then .error .noExifInJpeg
          else jpegScan buf fuel (p2 + (lb.getD 0 0 * 256 + lb.getD 1 0 - 2))

/-- `ExtractExifFromJPEG` (exifutils.go lines 90-169): checks the SOI marker
`0xFFD8` and runs the marker scan.  The extension argument is ignored, as in
the source. -/
def ExtractExifFromJPEG (buf : Buffer) (_ext : String) : Except ExifErr GoTime :=
  match readFull buf 0 2 with
  | (none, _) => .error .truncated
  | (some soi, p1) =>
    if soi.getD 0 0 = 255 ∧ soi.getD 1 0 = 216 then jpegScan buf (buf.length + 2) p1
    else .error .notAJpeg

/-- `ExtractExifFromTIFF` (exifutils.go lines 172-174): parse the buffer as
a TIFF structure from the reader's start position. -/
def ExtractExifFromTIFF (buf : Buffer) (_ext : String) : Except ExifErr GoTime :=
  ParseTIFFHeader buf 0

/-- The per-extension candidate offsets of `ExtractExifWithOffsets`
(exifutils.go lines 180-192). -/
def offsetsFor (ext : String) : List Nat :=
  if ext = ".cr2" then [0, 8, 16]
  else if ext = ".arw" then [0, 4, 8, 12]
  else if ext = ".nef" then [0, 4, 8]
  else [0, 4, 8]

/-- The offset loop of `ExtractExifWithOffsets` (exifutils.go lines
195-203): seek to each candidate offset in turn and return the first
successful TIFF parse. -/
def tryOffsets (buf : Buffer) : List Nat → Except ExifErr GoTime
  | [] => .error .noTiffAtOffsets
  | o :: rest =>
    match ParseTIFFHeader buf o with
    | .ok t => .ok t
    | .error _ => tryOffsets buf rest

/-- `ExtractExifWithOffsets` (exifutils.go lines 178-206). -/
def ExtractExifWithOffsets (buf : Buffer) (ext : String) : Except ExifErr GoTime :=
  tryOffsets buf (offsetsFor ext)

/-- One candidate window of `ScanForDateTimeString` (exifutils.go lines
234-247): the 19-byte slice must have the length 19, colons at indices 4, 7,
13, 16 and a space at index 10; it is then parsed with the EXIF layout and
accepted only when the year lies in [1990, 2100]. -/
def parseCandidate (w : List Nat) : Option GoTime :=
  if w.length = 19 ∧ w.getD 4 0 = 58 ∧ w.getD 7 0 = 58 ∧ w.getD 10 0 = 32 ∧
     w.getD 13 0 = 58 ∧ w.getD 16 0 = 58 then
    match parseExifString w with
    | some t => if 1990 ≤ t.year ∧ t.year ≤ 2100 then some t else none
    | none => none
  else none

/-- The window loop inside one chunk of `ScanForDateTimeString`: try the
candidate starting at each index `i` with `i < n - 19` (`k` counts the
remaining loop iterations) and return the first accepted date. -/
def scanWindows (chunk : List Nat) : Nat → Nat → Option GoTime
  | 0, _ => none
  | k + 1, i =>
    match parseCandidate ((chunk.drop i).take 19) with
    | some t => some t
    | none => scanWindows chunk k (i + 1)

/-- Scan one chunk: the Go loop runs `i` from 0 while `i < len(content)-19`,
so exactly `n - 19` window positions are tried (none when `n ≤ 19`; the
window starting at the final possible index `n - 19` is never examined). -/
def scanChunk (chunk : List Nat) : Option GoTime :=
  scanWindows chunk (chunk.length - 19) 0

/-- The chunked read loop of `ScanForDateTimeString` (exifutils.go lines
220-257): read up to 4096 bytes, stop with the terminal error on an empty
read, scan the chunk, and otherwise continue after adding the chunk size to
the running offset unless it exceeded 1 MiB.  Fuel: every iteration consumes
at least one byte, so `buf.length + 1` iterations always reach the empty
read. -/
def scanLoop (buf : Buffer) : Nat → Nat → Nat → Except ExifErr GoTime
  | 0, _, _ => .error .noDateTime
  | fuel + 1, pos, offset =>
    if ((buf.drop pos).take 4096).length = 0 then .error .noDateTime
    else
      match scanChunk ((buf.drop pos).take 4096) with
      | some t => .ok t
      | none =>
        if offset + ((buf.drop pos).take 4096).length > 1048576 then .error .noDateTime
        else
          scanLoop buf fuel (pos + ((buf.drop pos).take 4096).length)
            (offset + ((buf.drop pos).take 4096).length)

/-- `ScanForDateTimeString` (exifutils.go lines 209-260): rewind to the
start and scan the buffer in 4096-byte chunks.  The extension argument is
ignored, as in the source. -/
def ScanForDateTimeString (buf : Buffer) (_ext : String) : Except ExifErr GoTime :=
  scanLoop buf (buf.length + 1) 0 0

/-- Model of `strings.ToLower` on an extension string: lower-case every
character.  (Go lower-cases full Unicode; the extractor only ever compares
the result against ASCII literals such as ".jpg", for which mapping
`Char.toLower` is the same function.) -/
def toLowerString (s : String) : String := ⟨s.data.map Char.toLower⟩

/-- The strategy loop of `GetImageDateTime` (exifutils.go lines 73-84): the
reader is reseeked to position 0 before every attempt (`bytes.Reader.Seek`
to 0 cannot fail), so each strategy function receives the buffer starting at
its first byte; the first success is returned and the terminal error follows
when every strategy failed. -/
def tryStrategies (buf : Buffer) (ext : String) :
    List (Buffer → String → Except ExifErr GoTime) → Except ExifErr GoTime
  | [] => .error .noDateTime
  | s :: rest =>
    match s buf ext with
    | .ok t => .ok t
    | .error _ => tryStrategies buf ext rest

/-- `GetImageDateTime` (exifutils.go lines 53-87): lower-case the extension,
build the four-strategy list, drop the JPEG strategy (`strategies[1:]`) when
the extension is neither ".jpg" nor ".jpeg", and try the strategies in
order. -/
def GetImageDateTime (buf : Buffer) (fileExt : String) : Except ExifErr GoTime :=
  let ext := toLowerString fileExt
  let strategies := [ExtractExifFromJPEG, ExtractExifFromTIFF,
    ExtractExifWithOffsets, ScanForDateTimeString]
  let strategies := if ext ≠ ".jpg" ∧ ext ≠ ".jpeg" then strategies.drop 1 else strategies
  tryStrategies buf ext strategies

/-- Byte values of a string of ASCII characters (to write test buffers
legibly). -/
def strBytes (s : String) : Buffer := s.data.map Char.toNat

/-- The orchestration of `GetImageDateTime` as §4.3 of the specification
states it, written out literally for comparison with the embedded source:
the JPEG locator runs exactly when the lower-cased extension is ".jpg" or
".jpeg", then the plain-TIFF locator, the offset-scanning locator and the
fallback scanner, each from position 0; the first success is returned and
the terminal no-date/time error is returned exactly when every tried
strategy fails. -/
def GetImageDateTimeSpec (buf : Buffer) (fileExt : String) : Except ExifErr GoTime :=
  let ext := toLowerString fileExt
  let tail : Except ExifErr GoTime :=
    match ExtractExifFromTIFF buf ext with
    | .ok t => .ok t
    | .error _ =>
      match ExtractExifWithOffsets buf ext with
      | .ok t => .ok t
      | .error _ =>
        match ScanForDateTimeString buf ext with
        | .ok t => .ok t
        | .error _ => .error .noDateTime
  if ext = ".jpg" ∨ ext = ".jpeg" then
    match ExtractExifFromJPEG buf ext with
    | .ok t => .ok t
    | .error _ => tail
  else tail

/-! ### Concrete test buffers

Little-endian TIFF buffers built by hand; offsets are commented entry by
entry.  `0x9003` is `[3, 144]` and `0x0132` is `[50, 1]` in little-endian
byte order, the ASCII type is `[2, 0]`, a count of 20 is `[20, 0, 0, 0]`. -/

/-- "2023:06:15 14:30:45" with its null terminator. -/
def dateBytes2023 : Buffer := strBytes "2023:06:15 14:30:45" ++ [0]

/-- The timestamp carried by `dateBytes2023`. -/
def d2023 : GoTime := ⟨2023, 6, 15, 14, 30, 45, "UTC"⟩

/-- The timestamp of the plain date string "2020:05:15 14:30:25". -/
def d2020 : GoTime := ⟨2020, 5, 15, 14, 30, 25, "UTC"⟩

/-- A TIFF buffer whose IFD starts at offset 8, right after the header:
bytes 0-7 header ("II", 42, ifdOffset 8), 8-9 entry count 1, 10-21 one
DateTimeOriginal entry (ASCII, count 20, valueOffset 30), 22-29 padding,
30-49 the date string.  The date lives at TIFF-header-relative offset 30,
exactly where the entry's valueOffset says. -/
def tiffConforming : Buffer :=
  [73, 73, 42, 0, 8, 0, 0, 0, 1, 0,
   3, 144, 2, 0, 20, 0, 0, 0, 30, 0, 0, 0,
   0, 0, 0, 0, 0, 0, 0, 0] ++ dateBytes2023

/-- Like `tiffConforming` but the IFD starts at offset 12 instead of 8
(bytes 8-11 are padding before the IFD): bytes 0-7 header ("II", 42,
ifdOffset 12), 12-13 entry count 1, 14-25 the DateTimeOriginal entry
(ASCII, count 20, valueOffset 30), 26-29 padding, 30-49 the date string,
50-53 padding.  The date string again sits at TIFF-header-relative offset
30, as TIFF prescribes for valueOffset 30. -/
def tiffSkewed : Buffer :=
  [73, 73, 42, 0, 12, 0, 0, 0, 0, 0, 0, 0, 1, 0,
   3, 144, 2, 0, 20, 0, 0, 0, 30, 0, 0, 0,
   0, 0, 0, 0] ++ dateBytes2023 ++ [0, 0, 0, 0]

/-- Like `tiffSkewed` (ifdOffset 12, valueOffset 30) but with the date
string physically placed at offset 34 = headerStart + ifdOffset - 8 +
valueOffset, the position the code actually reads; bytes 26-33 are
padding and offset 30 holds zeros, not the date. -/
def tiffActual : Buffer :=
  [73, 73, 42, 0, 12, 0, 0, 0, 0, 0, 0, 0, 1, 0,
   3, 144, 2, 0, 20, 0, 0, 0, 30, 0, 0, 0,
   0, 0, 0, 0, 0, 0, 0, 0] ++ dateBytes2023

/-- A TIFF buffer (ifdOffset 8) whose IFD holds the generic DateTime tag
0x0132 first (value "2001:01:02 03:04:05" at offset 38) and
DateTimeOriginal 0x9003 second (value "2002:02:03 04:05:06" at offset 58):
bytes 8-9 entry count 2, 10-21 the 0x0132 entry, 22-33 the 0x9003 entry,
34-37 padding, 38-57 and 58-77 the two date strings. -/
def tiffOrder : Buffer :=
  [73, 73, 42, 0, 8, 0, 0, 0, 2, 0,
   50, 1, 2, 0, 20, 0, 0, 0, 38, 0, 0, 0,
   3, 144, 2, 0, 20, 0, 0, 0, 58, 0, 0, 0,
   0, 0, 0, 0] ++ (strBytes "2001:01:02 03:04:05" ++ [0]) ++
  (strBytes "2002:02:03 04:05:06" ++ [0])

/-- The value of `tiffOrder`'s generic DateTime entry. -/
def d2001 : GoTime := ⟨2001, 1, 2, 3, 4, 5, "UTC"⟩

/-- The value of `tiffOrder`'s DateTimeOriginal entry. -/
def d2002 : GoTime := ⟨2002, 2, 3, 4, 5, 6, "UTC"⟩

/-- A TIFF buffer (ifdOffset 8) whose single IFD entry is a
DateTimeOriginal of ASCII type with count 4: too short to hold a date. -/
def tiffShortOnly : Buffer :=
  [73, 73, 42, 0, 8, 0, 0, 0, 1, 0,
   3, 144, 2, 0, 4, 0, 0, 0, 0, 0, 0, 0]

/-- A TIFF buffer (ifdOffset 8) with two entries: first a DateTimeOriginal
of ASCII type with count 4 (to be skipped), then a generic DateTime entry
(ASCII, count 20, valueOffset 38) whose string at offset 38 parses. -/
def tiffShortThenGood : Buffer :=
  [73, 73, 42, 0, 8, 0, 0, 0, 2, 0,
   3, 144, 2, 0, 4, 0, 0, 0, 0, 0, 0, 0,
   50, 1, 2, 0, 20, 0, 0, 0, 38, 0, 0, 0,
   0, 0, 0, 0] ++ dateBytes2023

/-! ## Unfolding equations

Lean's automatic equation lemmas for the recursive functions above are
expensive to generate, so the proofs below use these hand-stated unfolding
equations, each of which holds definitionally. -/

theorem scanWindows_zero (c : List Nat) (i : Nat) : scanWindows c 0 i = none := rfl

theorem scanWindows_succ (c : List Nat) (k i : Nat) :
    scanWindows c (k + 1) i =
      (match parseCandidate ((c.drop i).take 19) with
       | some t => some t
       | none => scanWindows c k (i + 1)) := rfl

theorem scanLoop_zero (buf : Buffer) (pos off : Nat) :
    scanLoop buf 0 pos off = .error .noDateTime := rfl

theorem scanLoop_succ (buf : Buffer) (fuel pos off : Nat) :
    scanLoop buf (fuel + 1) pos off =
      (if ((buf.drop pos).take 4096).length = 0 then .error .noDateTime
       else
         match scanChunk ((buf.drop pos).take 4096) with
         | some t => .ok t
         | none =>
           if off + ((buf.drop pos).take 4096).length > 1048576 then .error .noDateTime
           else
             scanLoop buf fuel (pos + ((buf.drop pos).take 4096).length)
               (off + ((buf.drop pos).take 4096).length)) := rfl

theorem parseIFDEntries_zero (bo : ByteOrder) (buf : Buffer) (i pos : Nat) :
    parseIFDEntries bo buf i pos 0 = (.error .noDateTime, pos) := rfl

theorem parseIFDEntries_succ (bo : ByteOrder) (buf : Buffer) (i pos n : Nat) :
    parseIFDEntries bo buf i pos (n + 1) =
      (match readFull buf pos 12 with
       | (none, p) => (.error .truncated, p)
       | (some ebytes, currentPos) =>
         if (u16 bo (ebytes.take 2) = TagDateTimeOriginal ∨
             u16 bo (ebytes.take 2) = TagDateTime ∨
             u16 bo (ebytes.take 2) = TagDateTimeDigitized) ∧
             u16 bo ((ebytes.drop 2).take 2) = 2 then
           if u32 bo ((ebytes.drop 4).take 4) ≤ 4 then
             parseIFDEntries bo buf (i + 1) currentPos n
           else
             if (currentPos : Int) - (12 * (i + 1) + 2) - 8 +
                 (u32 bo ((ebytes.drop 8).take 4) : Int) < 0 then
               (.error .negativeSeek, currentPos)
             else
               match readFull buf ((currentPos : Int) - (12 * (i + 1) + 2) - 8 +
                   (u32 bo ((ebytes.drop 8).take 4) : Int)).toNat 20 with
               | (none, p) => (.error .truncated, p)
               | (some dateBytes, _) =>
                 match parseExifString (dateBytes.take 19) with
                 | some t => (.ok t, currentPos)
                 | none => parseIFDEntries bo buf (i + 1) currentPos n
         else
           parseIFDEntries bo buf (i + 1) currentPos n) := rfl

theorem jpegScan_zero (buf : Buffer) (pos : Nat) :
    jpegScan buf 0 pos = .error .fuelExhausted := rfl

theorem jpegScan_succ (buf : Buffer) (fuel pos : Nat) :
    jpegScan buf (fuel + 1) pos =
      (match readFull buf pos 2 with
       | (none, _) => .error .noExifInJpeg
       | (some mk, p1) =>
         if mk.getD 0 0 ≠ 255 then jpegScan buf fuel p1
         else if mk.getD 1 0 = 225 then
           match readFull buf p1 2 with
           | (none, _) => .error .noExifInJpeg
           | (some lb, p2) =>
             match readFull buf p2 6 with
             | (none, _) => .error .noExifInJpeg
             | (some hdr, p3) =>
               if hdr = [69, 120, 105, 102, 0, 0] then
                 match parseTIFFHeaderCore buf p3 with
                 | (.ok t, _) => .ok t
                 | (.error _, p4) =>
                   if 0 < (lb.getD 0 0 * 256 + lb.getD 1 0 : Int) - 2 - 6 then
                     jpegScan buf fuel
                       (p4 + ((lb.getD 0 0 * 256 + lb.getD 1 0 : Int) - 2 - 6).toNat)
                   else jpegScan buf fuel p4
               else
                 if 0 < (lb.getD 0 0 * 256 + lb.getD 1 0 : Int) - 2 - 6 then
                   jpegScan buf fuel
                     (p3 + ((lb.getD 0 0 * 256 + lb.getD 1 0 : Int) - 2 - 6).toNat)
                 else jpegScan buf fuel p3
         else if mk.getD 1 0 = 218 then .error .noExifInJpeg
         else
           match readFull buf p1 2 with
           | (none, _) => .error .noExifInJpeg
           | (some lb, p2) =>
             if lb.getD 0 0 * 256 + lb.getD 1 0 < 2 then .error .noExifInJpeg
             else jpegScan buf fuel (p2 + (lb.getD 0 0 * 256 + lb.getD 1 0 - 2))) := rfl

theorem tryOffsets_nil (buf : Buffer) : tryOffsets buf [] = .error .noTiffAtOffsets := rfl

theorem tryOffsets_cons (buf : Buffer) (o : Nat) (rest : List Nat) :
    tryOffsets buf (o :: rest) =
      (match ParseTIFFHeader buf o with
       | .ok t => .ok t
       | .error _ => tryOffsets buf rest) := rfl

theorem tryStrategies_nil (buf : Buffer) (e : String) :
    tryStrategies buf e [] = .error .noDateTime := rfl

theorem tryStrategies_cons (buf : Buffer) (e : String)
    (s : Buffer → String → Except ExifErr GoTime)
    (rest : List (Buffer → String → Except ExifErr GoTime)) :
    tryStrategies buf e (s :: rest) =
      (match s buf e with
       | .ok t => .ok t
       | .error _ => tryStrategies buf e rest) := rfl

/-! ## Basic facts about the date parser and the scanner windows -/

theorem parseExifString_some {s : List Nat} {t : GoTime} (h : parseExifString s = some t) :
    t.loc = "UTC" := by
  unfold parseExifString at h
  split at h
  · split at h
    · split at h
      · cases h; rfl
      · exact absurd h (by simp)
    · exact absurd h (by simp)
  · exact absurd h (by simp)

theorem parseCandidate_some {w : List Nat} {t : GoTime} (h : parseCandidate w = some t) :
    parseExifString w = some t ∧ 1990 ≤ t.year ∧ t.year ≤ 2100 := by
  unfold parseCandidate at h
  split at h
  · split at h
    next u heq =>
      split at h
      · cases h; exact ⟨heq, by assumption⟩
      · exact absurd h (by simp)
    next => exact absurd h (by simp)
  · exact absurd h (by simp)

theorem scanWindows_ok_ex {c : List Nat} {t : GoTime} :
    ∀ {k i : Nat}, scanWindows c k i = some t →
      ∃ w, parseCandidate w = some t := by
  intro k
  induction k with
  | zero => intro i h; rw [scanWindows_zero] at h; cases h
  | succ k ih =>
    intro i h
    rw [scanWindows_succ] at h
    split at h
    next u heq => cases h; exact ⟨_, heq⟩
    next => exact ih h

theorem scanLoop_ok_ex {buf : Buffer} {t : GoTime} :
    ∀ {fuel pos off : Nat}, scanLoop buf fuel pos off = .ok t →
      ∃ w, parseCandidate w = some t := by
  intro fuel
  induction fuel with
  | zero => intro pos off h; rw [scanLoop_zero] at h; cases h
  | succ fuel ih =>
    intro pos off h
    rw [scanLoop_succ] at h
    split at h
    · exact absurd h (by simp)
    · split at h
      next u heq =>
        cases h
        unfold scanChunk at heq
        exact scanWindows_ok_ex heq
      next =>
        split at h
        · exact absurd h (by simp)
        · exact ih h

theorem scan_ok_ex {buf : Buffer} {e : String} {t : GoTime}
    (h : ScanForDateTimeString buf e = .ok t) : ∃ w, parseCandidate w = some t :=
  scanLoop_ok_ex h

/-- The first window whose candidate is accepted determines the window
loop's result. -/
theorem scanWindows_first {c : List Nat} {m : Nat} {t : GoTime}
    (hm : parseCandidate ((c.drop m).take 19) = some t)
    (hbef : ∀ j, j < m → parseCandidate ((c.drop j).take 19) = none) :
    ∀ (k i : Nat), i ≤ m → m < i + k → scanWindows c k i = some t := by
  intro k
  induction k with
  | zero => intro i h1 h2; omega
  | succ k ih =>
    intro i h1 h2
    rw [scanWindows_succ]
    rcases Nat.eq_or_lt_of_le h1 with he | hlt
    · subst he
      rw [hm]
    · rw [hbef i hlt]
      exact ih (i + 1) (by omega) (by omega)

/-- C4, counterexample: a buffer of filler followed by a well-formed
in-range date string in the final 19 bytes (no trailing filler at all) is
rejected by the fallback scanner — the Go window loop runs `i` only while
`i < len - 19`, so the window starting at the last possible index is never
examined. -/
theorem scan_misses_trailing_date_cex :
    ScanForDateTimeString (strBytes "junk2020:05:15 14:30:25") ".raw" =
      .error .noDateTime := by decide

/-- C4 (amended): for a buffer `pre ++ date ++ post` of at most one chunk
(4096 bytes), with at least one byte after the 19-byte date string and no
earlier window accepted, the fallback scanner returns exactly the embedded
date. -/
theorem scan_roundtrip_embedded_date
    (d : List Nat) (t : GoTime) (pre post : Buffer) (e : String)
    (hd : parseCandidate d = some t)
    (hlen : d.length = 19)
    (hpost : post ≠ [])
    (htotal : (pre ++ (d ++ post)).length ≤ 4096)
    (hbef : ∀ j, j < pre.length →
      parseCandidate (((pre ++ (d ++ post)).drop j).take 19) = none) :
    ScanForDateTimeString (pre ++ (d ++ post)) e = .ok t := by
  have hpostlen : 0 < post.length := List.length_pos.mpr hpost
  have hbuflen : (pre ++ (d ++ post)).length = pre.length + (19 + post.length) := by
    simp [hlen]
  have hchunk : ((pre ++ (d ++ post)).drop 0).take 4096 = pre ++ (d ++ post) := by
    rw [List.drop_zero]
    exact List.take_of_length_le htotal
  have hat : parseCandidate (((pre ++ (d ++ post)).drop pre.length).take 19) = some t := by
    rw [List.drop_left, ← hlen, List.take_left]
    exact hd
  have hscan : scanChunk (pre ++ (d ++ post)) = some t := by
    unfold scanChunk
    exact scanWindows_first hat hbef _ 0 (Nat.zero_le _) (by rw [hbuflen]; omega)
  unfold ScanForDateTimeString
  rw [scanLoop_succ, hchunk, if_neg (by rw [hbuflen]; omega), hscan]

/-- C4, witness: `"junk" ++ "2020:05:15 14:30:25" ++ "x"` scans to exactly
2020-05-15 14:30:25. -/
theorem scan_roundtrip_embedded_date_w :
    ScanForDateTimeString
      (strBytes "junk" ++ (strBytes "2020:05:15 14:30:25" ++ [120])) ".raw" = .ok d2020 :=
  scan_roundtrip_embedded_date (strBytes "2020:05:15 14:30:25") d2020
    (strBytes "junk") [120] ".raw" (by decide) (by decide) (by decide) (by decide)
    (by decide)

/-- C5: the fallback scanner only ever succeeds with a year in
[1990, 2100]; a candidate with the matching punctuation shape but year 1800
or 3000 is rejected, while the boundary years 1990 and 2100 are accepted. -/
theorem scan_year_bounds :
    (∀ (buf : Buffer) (e : String) (t : GoTime),
        ScanForDateTimeString buf e = .ok t → 1990 ≤ t.year ∧ t.year ≤ 2100)
    ∧ ScanForDateTimeString (strBytes "1990:01:01 00:00:00" ++ [0]) ".raw" =
        .ok ⟨1990, 1, 1, 0, 0, 0, "UTC"⟩
    ∧ ScanForDateTimeString (strBytes "2100:12:31 23:59:59" ++ [0]) ".raw" =
        .ok ⟨2100, 12, 31, 23, 59, 59, "UTC"⟩
    ∧ ScanForDateTimeString (strBytes "1800:01:01 00:00:00" ++ [0]) ".raw" =
        .error .noDateTime
    ∧ ScanForDateTimeString (strBytes "3000:01:01 00:00:00" ++ [0]) ".raw" =
        .error .noDateTime := by
  refine ⟨?_, by decide, by decide, by decide, by decide⟩
  intro buf e t h
  obtain ⟨w, hw⟩ := scan_ok_ex h
  exact (parseCandidate_some hw).2

/-! ## The TIFF/IFD parser -/

/-- C1: how the TIFF parser locates a date/time value.  The code seeks to
`ifdStart - 8 + valueOffset` (with `ifdStart = tiffHeaderStart + ifdOffset`
recomputed from the cursor), which equals the documented
`tiffHeaderStart + valueOffset` only when `ifdOffset = 8`.  Evaluated:
with the IFD right after the header (`tiffConforming`) the date at
header-relative offset 30 = valueOffset is found; with the IFD at offset 12
(`tiffSkewed`) the same layout fails, because the parser reads from
position 34; and moving the date to position 34 (`tiffActual`) while
valueOffset still says 30 makes the parse succeed. -/
theorem tiff_value_offset_miscomputed :
    ParseTIFFHeader tiffConforming 0 = .ok d2023 ∧
    ParseTIFFHeader tiffSkewed 0 = .error .noDateTime ∧
    ParseTIFFHeader tiffActual 0 = .ok d2023 :=
  ⟨by decide, by decide, by decide⟩

/-- C2, counterexample: in `tiffOrder` the generic DateTime tag (0x0132)
appears before DateTimeOriginal (0x9003) and carries a different value; the
parser returns the generic tag's value, not the DateTimeOriginal one, so
tag priority does not override IFD order. -/
theorem tiff_tag_priority_cex :
    ParseTIFFHeader tiffOrder 0 = .ok d2001 ∧ d2001 ≠ d2002 :=
  ⟨by decide, by decide⟩

/-- C2 (amended): the parser returns the value of the first entry in IFD
order that carries any of the three recognized date/time tags with ASCII
type and count > 4 and whose pointed-to string parses — whatever entries
follow it. -/
theorem tiff_first_date_entry_wins
    (bo : ByteOrder) (buf : Buffer) (i pos n : Nat) (ebytes dBytes : List Nat) (t : GoTime)
    (hread : readFull buf pos 12 = (some ebytes, pos + 12))
    (htag : u16 bo (ebytes.take 2) = TagDateTimeOriginal ∨
      u16 bo (ebytes.take 2) = TagDateTime ∨
      u16 bo (ebytes.take 2) = TagDateTimeDigitized)
    (htype : u16 bo ((ebytes.drop 2).take 2) = 2)
    (hcount : 4 < u32 bo ((ebytes.drop 4).take 4))
    (hpos : ¬(((pos + 12 : Nat) : Int) - (12 * (i + 1) + 2) - 8 +
      (u32 bo ((ebytes.drop 8).take 4) : Int) < 0))
    (hread20 : (readFull buf (((pos + 12 : Nat) : Int) - (12 * (i + 1) + 2) - 8 +
      (u32 bo ((ebytes.drop 8).take 4) : Int)).toNat 20).1 = some dBytes)
    (hparse : parseExifString (dBytes.take 19) = some t) :
    (parseIFDEntries bo buf i pos (n + 1)).1 = .ok t := by
  rw [parseIFDEntries_succ, hread]
  dsimp only
  rw [if_pos ⟨htag, htype⟩, if_neg (by omega), if_neg hpos]
  rcases h20 : readFull buf (((pos + 12 : Nat) : Int) - (12 * (i + 1) + 2) - 8 +
      (u32 bo ((ebytes.drop 8).take 4) : Int)).toNat 20 with ⟨o20, q20⟩
  rw [h20] at hread20
  dsimp only at hread20
  subst hread20
  dsimp only
  rw [hparse]

/-- C2, witness: instantiating the first-entry lemma on `tiffOrder`'s first
entry (the generic DateTime tag at reader position 10). -/
theorem tiff_first_date_entry_wins_w :
    (parseIFDEntries .little tiffOrder 0 10 2).1 = .ok d2001 :=
  tiff_first_date_entry_wins .little tiffOrder 0 10 1
    [50, 1, 2, 0, 20, 0, 0, 0, 38, 0, 0, 0]
    (strBytes "2001:01:02 03:04:05" ++ [0]) d2001
    (by decide) (by decide) (by decide) (by decide) (by decide) (by decide) (by decide)

/-- C7: a date/time entry of ASCII type whose count is at most 4 is skipped
and scanning continues with the remaining entries; end to end, a buffer
whose short entry is followed by a good one yields the good entry's date,
and a buffer with only the short entry fails with the terminal
no-date/time error. -/
theorem short_count_entry_skipped :
    (∀ (bo : ByteOrder) (buf : Buffer) (i pos n : Nat) (ebytes : List Nat),
      readFull buf pos 12 = (some ebytes, pos + 12) →
      (u16 bo (ebytes.take 2) = TagDateTimeOriginal ∨
        u16 bo (ebytes.take 2) = TagDateTime ∨
        u16 bo (ebytes.take 2) = TagDateTimeDigitized) →
      u16 bo ((ebytes.drop 2).take 2) = 2 →
      u32 bo ((ebytes.drop 4).take 4) ≤ 4 →
      parseIFDEntries bo buf i pos (n + 1) = parseIFDEntries bo buf (i + 1) (pos + 12) n)
    ∧ ParseTIFFHeader tiffShortThenGood 0 = .ok d2023
    ∧ ParseTIFFHeader tiffShortOnly 0 = .error .noDateTime := by
  refine ⟨?_, by decide, by decide⟩
  intro bo buf i pos n ebytes hread htag htype hcount
  rw [parseIFDEntries_succ, hread]
  dsimp only
  rw [if_pos ⟨htag, htype⟩, if_pos hcount]

/-- C7, witness: the skip equation applied to `tiffShortThenGood`'s first
entry (count 4, at reader position 10). -/
theorem short_count_entry_skipped_w :
    parseIFDEntries .little tiffShortThenGood 0 10 2 =
      parseIFDEntries .little tiffShortThenGood 1 22 1 :=
  short_count_entry_skipped.1 .little tiffShortThenGood 0 10 1
    [3, 144, 2, 0, 4, 0, 0, 0, 0, 0, 0, 0] (by decide) (by decide) (by decide) (by decide)

/-- C8: when the first two bytes are neither "II" (73, 73) nor "MM"
(77, 77), the parser fails with the invalid-byte-order error, whatever the
rest of the stream holds — the remaining bytes are universally quantified,
so neither the magic-number field nor anything after it can influence the
result. -/
theorem invalid_byte_order_stops_parse (b0 b1 : Nat) (rest : Buffer)
    (h77 : [b0, b1] ≠ [77, 77]) (h73 : [b0, b1] ≠ [73, 73]) :
    ParseTIFFHeader (b0 :: b1 :: rest) 0 = .error .invalidByteOrder := by
  have hr : readFull (b0 :: b1 :: rest) 0 2 = (some [b0, b1], 2) := by
    unfold readFull
    rw [if_pos (by simp only [List.length_cons]; omega)]
    simp
  unfold ParseTIFFHeader parseTIFFHeaderCore
  rw [hr]
  dsimp only
  rw [if_neg h77, if_neg h73]

/-- C8, witness: the marker "XX" fails with the invalid-byte-order error
even though the rest of the buffer is a plausible header continuation. -/
theorem invalid_byte_order_stops_parse_w :
    ParseTIFFHeader [88, 88, 0, 42, 0, 0, 0, 8] 0 = .error .invalidByteOrder :=
  invalid_byte_order_stops_parse 88 88 [0, 42, 0, 0, 0, 8] (by decide) (by decide)

/-! ## Every success originates from the EXIF layout parser

Each extraction strategy can only produce a timestamp through
`parseExifString` (directly for the TIFF paths, or through an accepted
candidate for the fallback scanner); these lemmas track that fact through
every layer, which settles the UTC labelling of all successful results. -/

theorem parseIFDEntries_ok_ex {bo : ByteOrder} {buf : Buffer} {t : GoTime} :
    ∀ {n i pos : Nat}, (parseIFDEntries bo buf i pos n).1 = .ok t →
      ∃ s, parseExifString s = some t := by
  intro n
  induction n with
  | zero =>
    intro i pos h
    rw [parseIFDEntries_zero] at h
    exact absurd h (by simp)
  | succ n ih =>
    intro i pos h
    rw [parseIFDEntries_succ] at h
    split at h
    · exact absurd h (by simp)
    · split at h
      · split at h
        · exact ih h
        · split at h
          · exact absurd h (by simp)
          · split at h
            · exact absurd h (by simp)
            · split at h
              next u heq =>
                dsimp only at h
                injection h with h'
                exact ⟨_, h' ▸ heq⟩
              next => exact ih h
      · exact ih h

theorem parseTIFFAfterOrder_ok_ex {bo : ByteOrder} {buf : Buffer} {p1 : Nat} {t : GoTime}
    (h : (parseTIFFAfterOrder bo buf p1).1 = .ok t) :
    ∃ s, parseExifString s = some t := by
  unfold parseTIFFAfterOrder at h
  split at h
  · exact absurd h (by simp)
  · split at h
    · split at h
      · exact absurd h (by simp)
      · split at h
        · exact absurd h (by simp)
        · exact parseIFDEntries_ok_ex h
    · exact absurd h (by simp)

theorem parseTIFFHeaderCore_ok_ex {buf : Buffer} {pos : Nat} {t : GoTime}
    (h : (parseTIFFHeaderCore buf pos).1 = .ok t) :
    ∃ s, parseExifString s = some t := by
  unfold parseTIFFHeaderCore at h
  split at h
  · exact absurd h (by simp)
  · split at h
    · exact parseTIFFAfterOrder_ok_ex h
    · split at h
      · exact parseTIFFAfterOrder_ok_ex h
      · exact absurd h (by simp)

theorem parseTIFFHeader_ok_ex {buf : Buffer} {pos : Nat} {t : GoTime}
    (h : ParseTIFFHeader buf pos = .ok t) : ∃ s, parseExifString s = some t :=
  parseTIFFHeaderCore_ok_ex h

theorem jpegScan_ok_ex {buf : Buffer} {t : GoTime} :
    ∀ {fuel pos : Nat}, jpegScan buf fuel pos = .ok t →
      ∃ s, parseExifString s = some t := by
  intro fuel
  induction fuel with
  | zero =>
    intro pos h
    rw [jpegScan_zero] at h
    exact absurd h (by simp)
  | succ fuel ih =>
    intro pos h
    rw [jpegScan_succ] at h
    split at h
    · exact absurd h (by simp)
    · split at h
      · exact ih h
      · split at h
        · split at h
          · exact absurd h (by simp)
          · split at h
            · exact absurd h (by simp)
            · split at h
              · split at h
                next u snd heq =>
                  injection h with h'
                  subst h'
                  exact parseTIFFHeaderCore_ok_ex (by rw [heq])
                next =>
                  split at h
                  · exact ih h
                  · exact ih h
              · split at h
                · exact ih h
                · exact ih h
        · split at h
          · exact absurd h (by simp)
          · split at h
            · exact absurd h (by simp)
            · split at h
              · exact absurd h (by simp)
              · exact ih h

theorem extractExifFromJPEG_ok_ex {buf : Buffer} {e : String} {t : GoTime}
    (h : ExtractExifFromJPEG buf e = .ok t) : ∃ s, parseExifString s = some t := by
  unfold ExtractExifFromJPEG at h
  split at h
  · exact absurd h (by simp)
  · split at h
    · exact jpegScan_ok_ex h
    · exact absurd h (by simp)

theorem tryOffsets_ok_ex {buf : Buffer} {t : GoTime} :
    ∀ {os : List Nat}, tryOffsets buf os = .ok t →
      ∃ s, parseExifString s = some t := by
  intro os
  induction os with
  | nil => intro h; rw [tryOffsets_nil] at h; exact absurd h (by simp)
  | cons o rest ih =>
    intro h
    rw [tryOffsets_cons] at h
    split at h
    next u heq =>
      injection h with h'
      subst h'
      exact parseTIFFHeader_ok_ex heq
    next => exact ih h

theorem extractExifWithOffsets_ok_ex {buf : Buffer} {e : String} {t : GoTime}
    (h : ExtractExifWithOffsets buf e = .ok t) : ∃ s, parseExifString s = some t :=
  tryOffsets_ok_ex h

theorem scanForDateTimeString_ok_ex {buf : Buffer} {e : String} {t : GoTime}
    (h : ScanForDateTimeString buf e = .ok t) : ∃ s, parseExifString s = some t := by
  obtain ⟨w, hw⟩ := scan_ok_ex h
  exact ⟨w, (parseCandidate_some hw).1⟩

theorem getImageDateTime_ok_ex {buf : Buffer} {e : String} {t : GoTime}
    (h : GetImageDateTime buf e = .ok t) : ∃ s, parseExifString s = some t := by
  simp only [GetImageDateTime] at h
  split at h
  · rw [show (List.drop 1 [ExtractExifFromJPEG, ExtractExifFromTIFF,
        ExtractExifWithOffsets, ScanForDateTimeString]) =
        [ExtractExifFromTIFF, ExtractExifWithOffsets, ScanForDateTimeString] from rfl,
      tryStrategies_cons] at h
    split at h
    next u heq => injection h with h'; exact h' ▸ parseTIFFHeader_ok_ex heq
    next =>
      rw [tryStrategies_cons] at h
      split at h
      next u heq => injection h with h'; exact h' ▸ extractExifWithOffsets_ok_ex heq
      next =>
        rw [tryStrategies_cons] at h
        split at h
        next u heq => injection h with h'; exact h' ▸ scanForDateTimeString_ok_ex heq
        next => rw [tryStrategies_nil] at h; exact absurd h (by simp)
  · rw [tryStrategies_cons] at h
    split at h
    next u heq => injection h with h'; exact h' ▸ extractExifFromJPEG_ok_ex heq
    next =>
      rw [tryStrategies_cons] at h
      split at h
      next u heq => injection h with h'; exact h' ▸ parseTIFFHeader_ok_ex heq
      next =>
        rw [tryStrategies_cons] at h
        split at h
        next u heq => injection h with h'; exact h' ▸ extractExifWithOffsets_ok_ex heq
        next =>
          rw [tryStrategies_cons] at h
          split at h
          next u heq => injection h with h'; exact h' ▸ scanForDateTimeString_ok_ex heq
          next => rw [tryStrategies_nil] at h; exact absurd h (by simp)

/-! ## The orchestrator -/

/-- C3, counterexample: a buffer that embeds a textual date string yields a
timestamp under extension ".mp4" — the extension does not short-circuit
extraction, the fallback scanner still runs and succeeds. -/
theorem mp4_can_succeed_cex :
    GetImageDateTime (strBytes "2020:05:15 14:30:25" ++ [88]) ".mp4" = .ok d2020 := by
  decide

/-- C3 (amended): with extension ".mp4" the orchestrator merely omits the
JPEG strategy; the plain-TIFF locator, the offset-scanning locator and the
fallback scanner still run in order, the first success is returned, and the
terminal error is returned exactly when all three fail. -/
theorem mp4_runs_non_jpeg_strategies :
    ∀ buf : Buffer,
      GetImageDateTime buf ".mp4" =
        (match ExtractExifFromTIFF buf ".mp4" with
         | .ok t => .ok t
         | .error _ =>
           match ExtractExifWithOffsets buf ".mp4" with
           | .ok t => .ok t
           | .error _ =>
             match ScanForDateTimeString buf ".mp4" with
             | .ok t => .ok t
             | .error _ => .error .noDateTime) := by
  intro buf
  have hl : toLowerString ".mp4" = ".mp4" := by decide
  simp only [GetImageDateTime, hl]
  rw [if_pos (by decide), show (List.drop 1 [ExtractExifFromJPEG, ExtractExifFromTIFF,
      ExtractExifWithOffsets, ScanForDateTimeString]) =
      [ExtractExifFromTIFF, ExtractExifWithOffsets, ScanForDateTimeString] from rfl,
    tryStrategies_cons]
  cases ExtractExifFromTIFF buf ".mp4" with
  | ok t => rfl
  | error e1 =>
    dsimp only
    rw [tryStrategies_cons]
    cases ExtractExifWithOffsets buf ".mp4" with
    | ok t => rfl
    | error e2 =>
      dsimp only
      rw [tryStrategies_cons]
      cases ScanForDateTimeString buf ".mp4" with
      | ok t => rfl
      | error e3 =>
        dsimp only
        rw [tryStrategies_nil]

/-- C6: the orchestrator is extensionally the strategy chain of §4.3 of the
specification (`GetImageDateTimeSpec`): JPEG locator exactly for
lower-cased ".jpg"/".jpeg", then plain TIFF, then offset scanning, then the
fallback scanner, each handed the buffer from position 0, first success
wins, terminal no-date/time error iff every tried strategy fails. -/
theorem strategy_order_refines_spec :
    ∀ (buf : Buffer) (e : String), GetImageDateTime buf e = GetImageDateTimeSpec buf e := by
  intro buf e
  simp only [GetImageDateTime, GetImageDateTimeSpec]
  by_cases hj : toLowerString e = ".jpg" ∨ toLowerString e = ".jpeg"
  · rw [if_neg (by tauto), if_pos hj, tryStrategies_cons]
    cases ExtractExifFromJPEG buf (toLowerString e) with
    | ok t => rfl
    | error e1 =>
      dsimp only
      rw [tryStrategies_cons]
      cases ExtractExifFromTIFF buf (toLowerString e) with
      | ok t => rfl
      | error e2 =>
        dsimp only
        rw [tryStrategies_cons]
        cases ExtractExifWithOffsets buf (toLowerString e) with
        | ok t => rfl
        | error e3 =>
          dsimp only
          rw [tryStrategies_cons]
          cases ScanForDateTimeString buf (toLowerString e) with
          | ok t => rfl
          | error e4 =>
            dsimp only
            rw [tryStrategies_nil]
  · rw [if_pos (not_or.mp hj), if_neg hj,
      show (List.drop 1 [ExtractExifFromJPEG, ExtractExifFromTIFF,
        ExtractExifWithOffsets, ScanForDateTimeString]) =
        [ExtractExifFromTIFF, ExtractExifWithOffsets, ScanForDateTimeString] from rfl,
      tryStrategies_cons]
    cases ExtractExifFromTIFF buf (toLowerString e) with
    | ok t => rfl
    | error e2 =>
      dsimp only
      rw [tryStrategies_cons]
      cases ExtractExifWithOffsets buf (toLowerString e) with
      | ok t => rfl
      | error e3 =>
        dsimp only
        rw [tryStrategies_cons]
        cases ScanForDateTimeString buf (toLowerString e) with
        | ok t => rfl
        | error e4 =>
          dsimp only
          rw [tryStrategies_nil]

/-- C9: extraction is a pure function of the buffer and the extension — the
embedding carries the reader cursor explicitly and the Go code touches no
package-level mutable state, so two invocations on the same inputs are one
and the same value. -/
theorem getImageDateTime_deterministic :
    ∀ (buf : Buffer) (e : String), GetImageDateTime buf e = GetImageDateTime buf e :=
  fun _ _ => rfl

/-- C10: every timestamp the extractor returns is labelled UTC — both
producing sites parse with the zone-less EXIF layout, which attaches UTC. -/
theorem success_is_utc :
    ∀ (buf : Buffer) (e : String) (t : GoTime),
      GetImageDateTime buf e = .ok t → t.loc = "UTC" := by
  intro buf e t h
  obtain ⟨s, hs⟩ := getImageDateTime_ok_ex h
  exact parseExifString_some hs

/-- C10, witness: the timestamp extracted from a buffer holding a plain
date string is UTC-labelled. -/
theorem success_is_utc_w : d2020.loc = "UTC" :=
  success_is_utc (strBytes "2020:05:15 14:30:25" ++ [88]) ".mp4" d2020 (by decide)

end OrganizeMedia
